import Mathlib

/-!
Verification model of the embedded Lua scripting sandbox in src/lua.rs
(table protection, overlay environments, bootstrap, scoped filesystem
binding, and the execution entry point), shallowly embedded as a heap of
Lua tables with metatable-dispatch semantics.
-/

/-- Identifier of a table in the Lua heap. -/
abbrev TableId := Nat

/-- The native (Rust-implemented) functions the sandbox installs as
metamethods, plus opaque builtins of the interpreter standard library.
`protectedIndex backing` is the closure created in `protect_table` that
raw-reads the cloned backing table; `protectedNewindex` is the closure
that unconditionally raises the protection error; `overlayNewindex upper`
is the closure created in `create_overlay_table` that raw-writes into the
upper layer. -/
inductive NativeFn where
  | protectedIndex (backing : TableId)
  | protectedNewindex
  | overlayNewindex (upper : TableId)
  | base (name : String)
deriving DecidableEq, Repr

/-- Lua values, as far as the sandbox code manipulates them. -/
inductive LuaValue where
  | nil
  | boolean (b : Bool)
  | num (n : Int)
  | str (s : String)
  | table (id : TableId)
  | fn (f : NativeFn)
  | userdata (id : Nat)
deriving DecidableEq, Repr

/-- A Lua error (mlua LuaError), carrying the interpreter message. -/
inductive LuaError where
  | runtime (msg : String)
deriving DecidableEq, Repr

/-- A Lua table: raw field storage plus an optional metatable (which is
itself a table in the heap, as in the source where the metatable is built
with `create_table`). Later bindings in `fields` are shadowed by earlier
ones; a binding to `nil` marks the key absent. -/
structure LuaTable where
  fields : List (LuaValue × LuaValue)
  metatable : Option TableId
deriving Repr

def emptyTable : LuaTable := ⟨[], none⟩

/-- The heap of all allocated tables, with a fresh-id counter. -/
structure Heap where
  tables : List (TableId × LuaTable)
  next : TableId
deriving Repr

def emptyHeap : Heap := ⟨[], 0⟩

def lookupT : List (TableId × LuaTable) → TableId → Option LuaTable
  | [], _ => none
  | (i, tb) :: rest, t => if i = t then some tb else lookupT rest t

def Heap.getTable (h : Heap) (t : TableId) : LuaTable :=
  match lookupT h.tables t with
  | some tb => tb
  | none => emptyTable

def Heap.setTable (h : Heap) (t : TableId) (tb : LuaTable) : Heap :=
  ⟨(t, tb) :: h.tables, h.next⟩

/-- `Lua::create_table`: allocate a fresh empty table. -/
def Heap.createTable (h : Heap) : Heap × TableId :=
  (⟨(h.next, emptyTable) :: h.tables, h.next + 1⟩, h.next)

/-- Raw field lookup in an association list (first binding wins). -/
def lookupField : List (LuaValue × LuaValue) → LuaValue → LuaValue
  | [], _ => .nil
  | (k, v) :: rest, key => if k = key then v else lookupField rest key

/-- `LuaTable::raw_get`: read a field bypassing metamethods. -/
def Heap.rawGet (h : Heap) (t : TableId) (k : LuaValue) : LuaValue :=
  lookupField (h.getTable t).fields k

/-- `LuaTable::raw_set`: write a field bypassing metamethods. -/
def Heap.rawSet (h : Heap) (t : TableId) (k v : LuaValue) : Heap :=
  let tb := h.getTable t
  h.setTable t { tb with fields := (k, v) :: tb.fields }

/-- `LuaTable::raw_remove`: remove a field bypassing metamethods
(equivalent to a raw write of nil). -/
def Heap.rawRemove (h : Heap) (t : TableId) (k : LuaValue) : Heap :=
  h.rawSet t k .nil

/-- `LuaTable::clear`: remove all fields of a table. -/
def Heap.clearTable (h : Heap) (t : TableId) : Heap :=
  let tb := h.getTable t
  h.setTable t { tb with fields := [] }

/-- `LuaTable::set_metatable`. -/
def Heap.setMetatable (h : Heap) (t : TableId) (m : Option TableId) : Heap :=
  let tb := h.getTable t
  h.setTable t { tb with metatable := m }

/-- Raw write guarded by the interpreter check that a table index is not
nil (the check Lua performs when a raw table assignment finally happens). -/
def rawSetChecked (h : Heap) (t : TableId) (k v : LuaValue) : Except LuaError Heap :=
  if k = .nil then .error (.runtime "table index is nil") else .ok (h.rawSet t k v)

/-- Script-visible read `t[k]`, following Lua index semantics: a raw hit
is returned directly; on a raw miss the metatable entry under the key
"__index" is consulted — a table is indexed recursively, a native
function is called with the table and the key. Fuel bounds metatable
chains. -/
def index (h : Heap) : Nat → TableId → LuaValue → Except LuaError LuaValue
  | 0, _, _ => .error (.runtime "__index chain too long; possible loop")
  | fuel + 1, t, k =>
    let raw := h.rawGet t k
    if raw ≠ .nil then .ok raw
    else
      match (h.getTable t).metatable with
      | none => .ok .nil
      | some mt =>
        match h.rawGet mt (.str "__index") with
        | .nil => .ok .nil
        | .table t2 => index h fuel t2 k
        | .fn f =>
          match f with
          | .protectedIndex backing => .ok (h.rawGet backing k)
          | _ => .error (.runtime "bad __index metamethod")
        | _ => .error (.runtime "bad __index metamethod")

/-- Script-visible assignment `t[k] = v`, following Lua newindex
semantics: if the key is raw-present in `t` the assignment is raw and the
metatable is never consulted; only on a raw miss is the metatable entry
under the key "__newindex" consulted — a table is assigned recursively, a
native function is called with the table, the key and the value. -/
def newindex (h : Heap) : Nat → TableId → LuaValue → LuaValue → Except LuaError Heap
  | 0, _, _, _ => .error (.runtime "__newindex chain too long; possible loop")
  | fuel + 1, t, k, v =>
    if h.rawGet t k ≠ .nil then rawSetChecked h t k v
    else
      match (h.getTable t).metatable with
      | none => rawSetChecked h t k v
      | some mt =>
        match h.rawGet mt (.str "__newindex") with
        | .nil => rawSetChecked h t k v
        | .table t2 => newindex h fuel t2 k v
        | .fn f =>
          match f with
          | .protectedNewindex => .error (.runtime "attempt to update a protected table")
          | .overlayNewindex upper => rawSetChecked h upper k v
          | _ => .error (.runtime "bad __newindex metamethod")
        | _ => .error (.runtime "bad __newindex metamethod")

/-- Script-visible `getmetatable`: when the metatable has a "__metatable"
field, that field is returned instead of the metatable itself. -/
def lua_getmetatable (h : Heap) (t : TableId) : LuaValue :=
  match (h.getTable t).metatable with
  | none => .nil
  | some mt =>
    let guard := h.rawGet mt (.str "__metatable")
    if guard ≠ .nil then guard else .table mt

/-- Script-visible `setmetatable`: fails when the current metatable has a
"__metatable" field. -/
def lua_setmetatable (h : Heap) (t : TableId) (m : Option TableId) : Except LuaError Heap :=
  match (h.getTable t).metatable with
  | none => .ok (h.setMetatable t m)
  | some mt =>
    if h.rawGet mt (.str "__metatable") ≠ .nil then
      .error (.runtime "cannot change a protected metatable")
    else
      .ok (h.setMetatable t m)

/-- `LuaExt::protect_table` (src/lua.rs lines 28-45): build a fresh
metatable whose "__index" closure raw-reads the cloned backing table,
whose "__newindex" closure raises the protection error, and whose
"__metatable" field is `true`, then install it on the table. -/
def protect_table (h : Heap) (t : TableId) : Heap :=
  let p := h.createTable
  let h1 := p.1
  let mt := p.2
  let h2 := h1.rawSet mt (.str "__index") (.fn (.protectedIndex t))
  let h3 := h2.rawSet mt (.str "__newindex") (.fn .protectedNewindex)
  let h4 := h3.rawSet mt (.str "__metatable") (.boolean true)
  h4.setMetatable t (some mt)

/-- `LuaExt::create_protected_table` (src/lua.rs lines 47-51). -/
def create_protected_table (h : Heap) : Heap × TableId :=
  let p := h.createTable
  (protect_table p.1 p.2, p.2)

/-- `LuaExt::create_overlay_table` (src/lua.rs lines 53-71): allocate the
upper table and a metatable whose "__index" is the lower table directly,
whose "__newindex" closure raw-writes into the upper table, and whose
"__metatable" field is `true`. -/
def create_overlay_table (h : Heap) (lower : TableId) : Heap × TableId :=
  let p := h.createTable
  let upper := p.2
  let q := p.1.createTable
  let h1 := q.1
  let mt := q.2
  let h2 := h1.rawSet mt (.str "__index") (.table lower)
  let h3 := h2.rawSet mt (.str "__newindex") (.fn (.overlayNewindex upper))
  let h4 := h3.rawSet mt (.str "__metatable") (.boolean true)
  (h4.setMetatable upper (some mt), upper)

def LuaValue.asTableId : LuaValue → TableId
  | .table i => i
  | _ => 0

/-- The GC arena attached to the runtime (gc-arena crate, external).
Modelled from the spec: the arena tracks overall allocation, GC-managed
allocation split into still-rooted and unreachable parts, and pending
allocation debt. -/
structure Arena where
  rootedAllocation : Nat
  garbageAllocation : Nat
  externalAllocation : Nat
  allocationDebt : Nat
deriving DecidableEq, Repr

def Arena.totalGcAllocation (a : Arena) : Nat :=
  a.rootedAllocation + a.garbageAllocation

def Arena.totalAllocation (a : Arena) : Nat :=
  a.totalGcAllocation + a.externalAllocation

/-- Modelled from the spec: a full collection frees allocation attributable
to unreachable values while rooted and external allocation remain counted,
and clears pending allocation debt. -/
def Arena.collect_all (a : Arena) : Arena :=
  { a with garbageAllocation := 0, allocationDebt := 0 }

/-- `ModLuaRuntime` (src/lua.rs lines 74-77): the interpreter state,
globals table, capability table and arena. -/
structure Runtime where
  heap : Heap
  globals : TableId
  libTable : TableId
  arena : Arena
deriving Repr

/-- Events recorded while modelling the bootstrap sequence, in program
order: table protections, bundled helper script loads, native extension
injections, and installation of the xml library table. -/
inductive BootEvent where
  | protectedTable (t : TableId)
  | loadedBuiltin (name : String)
  | injectedNative (t : TableId) (field : String)
  | installedXmlLib (t : TableId)
deriving DecidableEq, Repr

/-- Modelled from the spec: the initial interpreter state created by
enabling only the table, string, math and package standard facilities
(the base library is always present in the embedding API), before the
bootstrap restrictions run. Globals hold the base primitives including
the dangerous ones the bootstrap removes, the ambient global alias, and
the four enabled library tables. -/
def initialState : Heap × TableId :=
  let pg := emptyHeap.createTable
  let g := pg.2
  let p1 := pg.1.createTable
  let stringT := p1.2
  let p2 := p1.1.createTable
  let tableT := p2.2
  let p3 := p2.1.createTable
  let mathT := p3.2
  let p4 := p3.1.createTable
  let packageT := p4.2
  let p5 := p4.1.createTable
  let preloadT := p5.2
  let p6 := p5.1.createTable
  let searchersT := p6.2
  let h := p6.1
  let h := h.rawSet stringT (.str "format") (.fn (.base "string.format"))
  let h := h.rawSet stringT (.str "rep") (.fn (.base "string.rep"))
  let h := h.rawSet tableT (.str "insert") (.fn (.base "table.insert"))
  let h := h.rawSet tableT (.str "remove") (.fn (.base "table.remove"))
  let h := h.rawSet mathT (.str "floor") (.fn (.base "math.floor"))
  let h := h.rawSet packageT (.str "cpath") (.str "?.so")
  let h := h.rawSet packageT (.str "loadlib") (.fn (.base "package.loadlib"))
  let h := h.rawSet packageT (.str "preload") (.table preloadT)
  let h := h.rawSet packageT (.str "searchpath") (.fn (.base "package.searchpath"))
  let h := h.rawSet packageT (.str "path") (.str "./?.lua")
  let h := h.rawSet packageT (.str "searchers") (.table searchersT)
  let h := h.rawSet searchersT (.num 1) (.fn (.base "searcher.preload"))
  let h := h.rawSet searchersT (.num 2) (.fn (.base "searcher.lua"))
  let h := h.rawSet g (.str "dofile") (.fn (.base "dofile"))
  let h := h.rawSet g (.str "collectgarbage") (.fn (.base "collectgarbage"))
  let h := h.rawSet g (.str "loadfile") (.fn (.base "loadfile"))
  let h := h.rawSet g (.str "rawset") (.fn (.base "rawset"))
  let h := h.rawSet g (.str "rawget") (.fn (.base "rawget"))
  let h := h.rawSet g (.str "print") (.fn (.base "print"))
  let h := h.rawSet g (.str "pairs") (.fn (.base "pairs"))
  let h := h.rawSet g (.str "setmetatable") (.fn (.base "setmetatable"))
  let h := h.rawSet g (.str "require") (.fn (.base "require"))
  let h := h.rawSet g (.str "_G") (.table g)
  let h := h.rawSet g (.str "string") (.table stringT)
  let h := h.rawSet g (.str "table") (.table tableT)
  let h := h.rawSet g (.str "math") (.table mathT)
  let h := h.rawSet g (.str "package") (.table packageT)
  (h, g)

/-- `ModLuaRuntime::setup_package` (src/lua.rs lines 152-167): strip the
native and filesystem resolution primitives from the package table, pin
the logical search path, clear the searcher list and load the bundled
vfs searcher script (modelled from the spec as installing exactly one
resolution strategy). -/
def setup_package (h : Heap) (g : TableId) : Heap :=
  let pkg := (h.rawGet g (.str "package")).asTableId
  let h1 := h.rawRemove pkg (.str "cpath")
  let h2 := h1.rawRemove pkg (.str "loadlib")
  let h3 := h2.rawRemove pkg (.str "preload")
  let h4 := h3.rawRemove pkg (.str "searchpath")
  let h5 := h4.rawSet pkg (.str "path") (.str "./?.lua;/data/?.lua;/?.lua")
  let searchers := (h5.rawGet pkg (.str "searchers")).asTableId
  let h6 := h5.clearTable searchers
  h6.rawSet searchers (.num 1) (.fn (.base "vfssearcher"))

/-- Modelled from the spec: executing the bundled helper script named
`name` creates the helper sub-table under `field` inside the capability
table with its bundled helper functions. -/
def loadBuiltinLib (h : Heap) (lib : TableId) (field : String) : Heap :=
  let p := h.createTable
  let h1 := p.1.rawSet p.2 (.str "bundled") (.fn (.base (field ++ " bundled helper")))
  h1.rawSet lib (.str field) (.table p.2)

/-- Modelled from the spec: `xml::create_xml_lib` builds the library
table of document/XML bridge operations. -/
def create_xml_lib (h : Heap) : Heap × TableId :=
  let p := h.createTable
  (p.1.rawSet p.2 (.str "element") (.fn (.base "xml.element")), p.2)

/-- Modelled from the spec: `debug::extend_debug_library` injects
additional native-implemented functions into the already-loaded bundled
debug sub-table, writing from the host side (raw writes). -/
def extend_debug_library (h : Heap) (t : TableId) : Heap :=
  h.rawSet t (.str "native") (.fn (.base "debug native extension"))

/-- Modelled from the spec: `util::extend_util_library` injects
additional native-implemented functions into the already-loaded bundled
util sub-table, writing from the host side (raw writes). -/
def extend_util_library (h : Heap) (t : TableId) : Heap :=
  h.rawSet t (.str "native") (.fn (.base "util native extension"))

/-- The protection loop of `ModLuaRuntime::new` (src/lua.rs lines
129-134): protect every table-valued entry of the capability table. -/
def protectSubTables : Heap → List BootEvent → List (LuaValue × LuaValue) → Heap × List BootEvent
  | h, log, [] => (h, log)
  | h, log, (_, v) :: rest =>
    match v with
    | .table t => protectSubTables (protect_table h t) (log ++ [.protectedTable t]) rest
    | _ => protectSubTables h log rest

/-- `ModLuaRuntime::new` (src/lua.rs lines 94-150), with an event log
recording the order of protections, builtin loads and native
injections. -/
def ModLuaRuntime_new : Runtime × List BootEvent :=
  let st := initialState
  let g := st.2
  let h1 := st.1.rawRemove g (.str "dofile")
  let h2 := h1.rawRemove g (.str "collectgarbage")
  let h3 := h2.rawRemove g (.str "loadfile")
  let h4 := h3.rawRemove g (.str "rawset")
  let stringT := (h4.rawGet g (.str "string")).asTableId
  let h5 := protect_table h4 stringT
  let tableT := (h5.rawGet g (.str "table")).asTableId
  let h6 := protect_table h5 tableT
  let mathT := (h6.rawGet g (.str "math")).asTableId
  let h7 := protect_table h6 mathT
  let h8 := setup_package h7 g
  let packageT := (h8.rawGet g (.str "package")).asTableId
  let h9 := protect_table h8 packageT
  let h10 := h9.rawRemove g (.str "_G")
  let log0 : List BootEvent :=
    [.protectedTable stringT, .protectedTable tableT, .protectedTable mathT,
     .protectedTable packageT]
  let p := h10.createTable
  let lib := p.2
  let h11 := p.1.rawSet g (.str "mod") (.table lib)
  let h12 := loadBuiltinLib h11 lib "util"
  let h13 := loadBuiltinLib h12 lib "iter"
  let h14 := loadBuiltinLib h13 lib "table"
  let h15 := loadBuiltinLib h14 lib "debug"
  let log1 := log0 ++
    [.loadedBuiltin "util.lua", .loadedBuiltin "iterutil.lua",
     .loadedBuiltin "table.lua", .loadedBuiltin "debug.lua"]
  let q := protectSubTables h15 log1 ((h15.getTable lib).fields)
  let r := create_xml_lib q.1
  let h17 := r.1.rawSet lib (.str "xml") (.table r.2)
  let log3 := q.2 ++ [.installedXmlLib r.2]
  let dbg := (h17.rawGet lib (.str "debug")).asTableId
  let h18 := extend_debug_library h17 dbg
  let log4 := log3 ++ [.injectedNative dbg "native"]
  let utl := (h18.rawGet lib (.str "util")).asTableId
  let h19 := extend_util_library h18 utl
  let log5 := log4 ++ [.injectedNative utl "native"]
  let h20 := protect_table h19 lib
  (⟨h20, g, lib, ⟨0, 0, 0, 0⟩⟩, log5 ++ [.protectedTable lib])

/-- The bootstrapped runtime. -/
def bootRuntime : Runtime := ModLuaRuntime_new.1

/-- The bootstrap event log, in program order. -/
def bootEvents : List BootEvent := ModLuaRuntime_new.2

/-- The install phase of `ModLuaRuntime::with_filesystems` (src/lua.rs
lines 178-183): create a protected vfs table, fill it with the scoped
filesystem userdata under their names, and raw-write it under "vfs" in
the capability table. -/
def installVfs (h : Heap) (lib : TableId) (fss : List (LuaValue × Nat)) : Heap × TableId :=
  let p := create_protected_table h
  let vfs := p.2
  let h1 := fss.foldl (fun acc nf => acc.rawSet vfs nf.1 (.userdata nf.2)) p.1
  (h1.rawSet lib (.str "vfs") (.table vfs), vfs)

/-- `ModLuaRuntime::with_filesystems` (src/lua.rs lines 173-191): install
the vfs namespace, run the scoped body, raw-remove the vfs namespace,
then return the body result. -/
def with_filesystems {R : Type} (rt : Runtime) (fss : List (LuaValue × Nat))
    (body : Heap → Heap × Except LuaError R) : Heap × Except LuaError R :=
  let p := installVfs rt.heap rt.libTable fss
  let q := body p.1
  (q.1.rawRemove rt.libTable (.str "vfs"), q.2)

/-- A script statement of the modelled script language: assign a value to
a global name, or observe (read) a global name. -/
inductive Stmt where
  | assign (name : String) (v : LuaValue)
  | observe (name : String)
deriving DecidableEq, Repr

/-- A source chunk: plain text carrying a program, or a precompiled
binary chunk. -/
inductive Source where
  | text (prog : List Stmt)
  | binary (prog : List Stmt)
deriving DecidableEq, Repr

/-- `LuaContext` (src/lua.rs lines 79-82). The document root is modelled
as an opaque userdata payload. -/
structure LuaContext where
  document_root : Option Nat
  print_arena_stats : Bool
deriving DecidableEq, Repr

/-- Execute a list of statements against the environment table using the
script-visible (metamethod) access paths, collecting observations and
stopping at the first error. -/
def execStmts (fuel : Nat) : Heap → TableId → List Stmt → Heap × List LuaValue × Option LuaError
  | h, _, [] => (h, [], none)
  | h, env, .assign n v :: rest =>
    match newindex h fuel env (.str n) v with
    | .ok h2 => execStmts fuel h2 env rest
    | .error e => (h, [], some e)
  | h, env, .observe n :: rest =>
    match index h fuel env (.str n) with
    | .ok v =>
      let r := execStmts fuel h env rest
      (r.1, v :: r.2.1, r.2.2)
    | .error e => (h, [], some e)

/-- Metamethod-chain fuel used by the execution entry point; the chains
built by this runtime have depth at most two. -/
def runFuel : Nat := 100

/-- The three diagnostic lines printed before collection (src/lua.rs
lines 216-218). -/
def statsBefore (a : Arena) : List String :=
  ["allocated bytes: " ++ toString a.totalAllocation,
   "allocated bytes (gc only): " ++ toString a.totalGcAllocation,
   "debt: " ++ toString a.allocationDebt]

/-- The two diagnostic lines printed after collection (src/lua.rs lines
220-227). -/
def statsAfter (a : Arena) : List String :=
  ["allocated bytes after collection (gc only): " ++ toString a.totalGcAllocation,
   "allocated bytes after collection: " ++ toString a.totalAllocation]

/-- The outcome of one `run` call: the updated runtime, the error if any,
the observations made by the script, and the diagnostic output lines. -/
structure RunResult where
  rt : Runtime
  res : Option LuaError
  obs : List LuaValue
  output : List String
deriving Repr

/-- The environment-setup, compile and execute phase of
`ModLuaRuntime::run` (src/lua.rs lines 196-212): build a fresh overlay
over globals, alias it as its own "_G", bind the document root under
"document" through the overlay write path when present, reject binary
chunks (text compile mode) before executing anything, and otherwise
execute the program against the overlay. -/
def runExec (rt : Runtime) (code : Source) (d : Option Nat) :
    Heap × List LuaValue × Option LuaError :=
  let p := create_overlay_table rt.heap rt.globals
  let env := p.2
  let h2 := p.1.rawSet env (.str "_G") (.table env)
  match (match d with
         | some dd => newindex h2 runFuel env (.str "document") (.userdata dd)
         | none => .ok h2) with
  | .error e => (h2, [], some e)
  | .ok h3 =>
    match code with
    | .binary _ => (h3, [], some (.runtime "attempt to load a binary chunk"))
    | .text prog => execStmts runFuel h3 env prog

/-- `ModLuaRuntime::run` (src/lua.rs lines 193-231): run the exec phase;
on success, when `print_arena_stats` is set, report the arena figures,
run one full collection and report again (src/lua.rs lines 214-228). -/
def ModLuaRuntime_run (rt : Runtime) (code : Source) (ctx : LuaContext) : RunResult :=
  let r := runExec rt code ctx.document_root
  match r.2.2 with
  | some e => ⟨{ rt with heap := r.1 }, some e, r.2.1, []⟩
  | none =>
    if ctx.print_arena_stats then
      ⟨{ rt with heap := r.1, arena := rt.arena.collect_all }, none, r.2.1,
        statsBefore rt.arena ++ statsAfter rt.arena.collect_all⟩
    else
      ⟨{ rt with heap := r.1 }, none, r.2.1, []⟩

deriving instance DecidableEq for Except

section HeapLemmas

variable (h : Heap) (t t2 : TableId) (tb : LuaTable) (k k2 v : LuaValue)

@[simp] theorem lookupField_nil : lookupField [] k = .nil := rfl

@[simp] theorem lookupField_cons (fs : List (LuaValue × LuaValue)) :
    lookupField ((k, v) :: fs) k2 = if k = k2 then v else lookupField fs k2 := rfl

theorem rawGet_def : h.rawGet t k = lookupField (h.getTable t).fields k := rfl

@[simp] theorem getTable_setTable_self : (h.setTable t tb).getTable t = tb := by
  simp [Heap.setTable, Heap.getTable, lookupT]

theorem getTable_setTable_ne (hne : t2 ≠ t) :
    (h.setTable t tb).getTable t2 = h.getTable t2 := by
  simp [Heap.setTable, Heap.getTable, lookupT, Ne.symm hne]

@[simp] theorem next_setTable : (h.setTable t tb).next = h.next := rfl

@[simp] theorem createTable_snd : (h.createTable).2 = h.next := rfl

@[simp] theorem next_createTable : (h.createTable).1.next = h.next + 1 := rfl

@[simp] theorem getTable_createTable_self : (h.createTable).1.getTable h.next = emptyTable := by
  simp [Heap.createTable, Heap.getTable, lookupT]

theorem getTable_createTable_ne (hne : t ≠ h.next) :
    (h.createTable).1.getTable t = h.getTable t := by
  simp [Heap.createTable, Heap.getTable, lookupT, Ne.symm hne]

@[simp] theorem next_rawSet : (h.rawSet t k v).next = h.next := rfl

@[simp] theorem fields_rawSet_self :
    ((h.rawSet t k v).getTable t).fields = (k, v) :: (h.getTable t).fields := by
  simp [Heap.rawSet]

@[simp] theorem metatable_rawSet_self :
    ((h.rawSet t k v).getTable t).metatable = (h.getTable t).metatable := by
  simp [Heap.rawSet]

theorem getTable_rawSet_ne (hne : t2 ≠ t) :
    (h.rawSet t k v).getTable t2 = h.getTable t2 := by
  simp [Heap.rawSet, getTable_setTable_ne _ _ _ _ hne]

@[simp] theorem rawGet_rawSet_self : (h.rawSet t k v).rawGet t k = v := by
  simp [rawGet_def]

theorem rawGet_rawSet_ne_key (hne : k ≠ k2) :
    (h.rawSet t k v).rawGet t k2 = h.rawGet t k2 := by
  simp [rawGet_def, hne]

theorem rawGet_rawSet_ne_table (hne : t2 ≠ t) :
    (h.rawSet t k v).rawGet t2 k2 = h.rawGet t2 k2 := by
  simp [rawGet_def, getTable_rawSet_ne _ _ _ _ _ hne]

@[simp] theorem next_setMetatable (m : Option TableId) : (h.setMetatable t m).next = h.next := rfl

@[simp] theorem fields_setMetatable_self (m : Option TableId) :
    ((h.setMetatable t m).getTable t).fields = (h.getTable t).fields := by
  simp [Heap.setMetatable]

@[simp] theorem metatable_setMetatable_self (m : Option TableId) :
    ((h.setMetatable t m).getTable t).metatable = m := by
  simp [Heap.setMetatable]

theorem getTable_setMetatable_ne (m : Option TableId) (hne : t2 ≠ t) :
    (h.setMetatable t m).getTable t2 = h.getTable t2 := by
  simp [Heap.setMetatable, getTable_setTable_ne _ _ _ _ hne]

theorem rawGet_setMetatable_ne (m : Option TableId) (hne : t2 ≠ t) :
    (h.setMetatable t m).rawGet t2 k = h.rawGet t2 k := by
  simp [rawGet_def, getTable_setMetatable_ne _ _ _ _ hne]

theorem rawGet_setMetatable_self (m : Option TableId) :
    (h.setMetatable t m).rawGet t k = h.rawGet t k := by
  simp [rawGet_def]

end HeapLemmas

section DispatchLemmas

variable (h : Heap) (fuel : Nat) (t mt t2 : TableId) (k v : LuaValue)

theorem index_raw_hit (hf : 0 < fuel) (hraw : h.rawGet t k ≠ .nil) :
    index h fuel t k = .ok (h.rawGet t k) := by
  cases fuel with
  | zero => omega
  | succ n => simp [index, hraw]

theorem index_nometa (hf : 0 < fuel) (hmeta : (h.getTable t).metatable = none) :
    index h fuel t k = .ok (h.rawGet t k) := by
  cases fuel with
  | zero => omega
  | succ n =>
    by_cases hraw : h.rawGet t k = .nil
    · simp [index, hraw, hmeta]
    · simp [index, hraw]

theorem index_meta_protected (hf : 0 < fuel) (hraw : h.rawGet t k = .nil)
    (hmeta : (h.getTable t).metatable = some mt)
    (hidx : h.rawGet mt (.str "__index") = .fn (.protectedIndex t2)) :
    index h fuel t k = .ok (h.rawGet t2 k) := by
  cases fuel with
  | zero => omega
  | succ n => simp [index, hraw, hmeta, hidx]

theorem index_meta_table (n : Nat) (hraw : h.rawGet t k = .nil)
    (hmeta : (h.getTable t).metatable = some mt)
    (hidx : h.rawGet mt (.str "__index") = .table t2) :
    index h (n + 1) t k = index h n t2 k := by
  simp [index, hraw, hmeta, hidx]

theorem newindex_raw_hit (hf : 0 < fuel) (hraw : h.rawGet t k ≠ .nil) :
    newindex h fuel t k v = rawSetChecked h t k v := by
  cases fuel with
  | zero => omega
  | succ n => simp [newindex, hraw]

theorem newindex_nometa (hf : 0 < fuel) (hmeta : (h.getTable t).metatable = none) :
    newindex h fuel t k v = rawSetChecked h t k v := by
  cases fuel with
  | zero => omega
  | succ n =>
    by_cases hraw : h.rawGet t k = .nil
    · simp [newindex, hraw, hmeta]
    · simp [newindex, hraw]

theorem newindex_meta_protected (hf : 0 < fuel) (hraw : h.rawGet t k = .nil)
    (hmeta : (h.getTable t).metatable = some mt)
    (hni : h.rawGet mt (.str "__newindex") = .fn .protectedNewindex) :
    newindex h fuel t k v = .error (.runtime "attempt to update a protected table") := by
  cases fuel with
  | zero => omega
  | succ n => simp [newindex, hraw, hmeta, hni]

theorem newindex_meta_overlay (upper : TableId) (hf : 0 < fuel) (hraw : h.rawGet t k = .nil)
    (hmeta : (h.getTable t).metatable = some mt)
    (hni : h.rawGet mt (.str "__newindex") = .fn (.overlayNewindex upper)) :
    newindex h fuel t k v = rawSetChecked h upper k v := by
  cases fuel with
  | zero => omega
  | succ n => simp [newindex, hraw, hmeta, hni]

theorem rawSetChecked_ok (hk : k ≠ .nil) : rawSetChecked h t k v = .ok (h.rawSet t k v) := by
  simp [rawSetChecked, hk]

end DispatchLemmas

section WrapperLemmas

variable (h : Heap) (t t2 lower : TableId) (k : LuaValue)

/-- What `protect_table` builds: the backing fields are untouched, the
fresh metatable is installed, and it carries the raw-reading index
closure, the rejecting newindex closure, and the metatable guard. -/
theorem protect_table_spec (ht : t ≠ h.next) :
    (protect_table h t).next = h.next + 1 ∧
    ((protect_table h t).getTable t).fields = (h.getTable t).fields ∧
    ((protect_table h t).getTable t).metatable = some h.next ∧
    (protect_table h t).rawGet h.next (.str "__index") = .fn (.protectedIndex t) ∧
    (protect_table h t).rawGet h.next (.str "__newindex") = .fn .protectedNewindex ∧
    (protect_table h t).rawGet h.next (.str "__metatable") = .boolean true := by
  unfold protect_table
  simp [getTable_rawSet_ne, getTable_createTable_ne, getTable_setMetatable_ne,
    rawGet_setMetatable_ne, rawGet_rawSet_ne_key, rawGet_def, ht, Ne.symm ht]

theorem protect_table_preserve (hne : t2 ≠ t) (hfresh : t2 ≠ h.next) :
    (protect_table h t).getTable t2 = h.getTable t2 := by
  unfold protect_table
  simp [getTable_rawSet_ne, getTable_createTable_ne, getTable_setMetatable_ne,
    hne, hfresh]

/-- What `create_overlay_table` builds: a fresh empty upper table whose
metatable reads through to the lower table and raw-writes into the upper
table, with the metatable guard set. -/
theorem create_overlay_spec :
    (create_overlay_table h lower).2 = h.next ∧
    (create_overlay_table h lower).1.next = h.next + 2 ∧
    ((create_overlay_table h lower).1.getTable h.next).fields = [] ∧
    ((create_overlay_table h lower).1.getTable h.next).metatable = some (h.next + 1) ∧
    (create_overlay_table h lower).1.rawGet (h.next + 1) (.str "__index") = .table lower ∧
    (create_overlay_table h lower).1.rawGet (h.next + 1) (.str "__newindex") =
      .fn (.overlayNewindex h.next) ∧
    (create_overlay_table h lower).1.rawGet (h.next + 1) (.str "__metatable") =
      .boolean true := by
  unfold create_overlay_table
  simp [getTable_rawSet_ne, getTable_createTable_ne, getTable_setMetatable_ne,
    rawGet_setMetatable_ne, rawGet_rawSet_ne_key, rawGet_def, emptyTable]

theorem create_overlay_preserve (h1 : t2 ≠ h.next) (h2 : t2 ≠ h.next + 1) :
    (create_overlay_table h lower).1.getTable t2 = h.getTable t2 := by
  unfold create_overlay_table
  simp [getTable_rawSet_ne, getTable_createTable_ne, getTable_setMetatable_ne, h1, h2]

end WrapperLemmas

/-- C1: the claim states that after protect(T) every script-visible
(non-raw) write of every key K fails with the sandbox-violation error.
Evaluating the modelled code at the failing input refutes the write part
for keys bound before protection: the Lua assignment path finds such a
key raw-present in the table and performs a raw assignment without ever
consulting the access-control wrapper, so the write succeeds and mutates
the protected table. Writes of keys absent from the table do fail with
the error, and reads of keys set before protection do return their
original values, as this theorem also records. -/
theorem C1_protect_table_existing_key_write_succeeds :
    (newindex (protect_table ((emptyHeap.createTable).1.rawSet 0 (.str "k") (.num 1)) 0)
        10 0 (.str "k") (.num 2)).map
      (fun h2 => h2.rawGet 0 (.str "k")) = .ok (.num 2) ∧
    index (protect_table ((emptyHeap.createTable).1.rawSet 0 (.str "k") (.num 1)) 0)
        10 0 (.str "k") = .ok (.num 1) ∧
    newindex (protect_table ((emptyHeap.createTable).1.rawSet 0 (.str "k") (.num 1)) 0)
        10 0 (.str "j") (.num 3) =
      .error (.runtime "attempt to update a protected table") :=
  ⟨rfl, rfl, rfl⟩

/-- C2 counterexample: the claim states that after writing K through the
overlay, reading K through the overlay yields the written value, for
every written value. Writing the value nil refutes it: with the lower
table holding k = 5, writing nil through the overlay lands in the upper
layer as an absent binding, so reading k falls through to the lower
table and yields 5, not the written nil. -/
theorem C2_overlay_nil_write_not_shadowing :
    (newindex
        (create_overlay_table ((emptyHeap.createTable).1.rawSet 0 (.str "k") (.num 5)) 0).1
        10 1 (.str "k") .nil).map (fun h2 => index h2 10 1 (.str "k")) =
      .ok (.ok (.num 5)) ∧
    LuaValue.num 5 ≠ LuaValue.nil :=
  ⟨rfl, by decide⟩

/-- C2 (amended): for every overlay built over a lower table L, writing a
key K through the overlay lands in the upper layer and leaves every
binding of L unchanged, whether or not K preexists in L; a subsequent
read of K through the overlay yields the written value provided that
value is not nil (writing nil merely keeps the upper binding absent, so
the read falls through to L); and a read of any key while the upper
layer lacks it falls through to L. -/
theorem C2_overlay_write_isolated (h : Heap) (lower : TableId) (k v : LuaValue) (n : Nat)
    (hl : lower < h.next) (hk : k ≠ .nil) (hv : v ≠ .nil) :
    ∃ h2,
      newindex (create_overlay_table h lower).1 (n + 1) (create_overlay_table h lower).2 k v =
        .ok h2 ∧
      (∀ k2, h2.rawGet lower k2 = h.rawGet lower k2) ∧
      index h2 (n + 1) (create_overlay_table h lower).2 k = .ok v ∧
      (∀ k3 m,
        index (create_overlay_table h lower).1 (m + 1) (create_overlay_table h lower).2 k3 =
          index (create_overlay_table h lower).1 m lower k3) := by
  obtain ⟨hsnd, -, hfields, hmeta, hidx, hni, -⟩ := create_overlay_spec h lower
  have hup : ∀ k0, (create_overlay_table h lower).1.rawGet h.next k0 = .nil := by
    intro k0; rw [rawGet_def, hfields]; rfl
  have hne1 : lower ≠ h.next := Nat.ne_of_lt hl
  have hne2 : lower ≠ h.next + 1 := Nat.ne_of_lt (Nat.lt_succ_of_lt hl)
  refine ⟨(create_overlay_table h lower).1.rawSet h.next k v, ?_, ?_, ?_, ?_⟩
  · rw [hsnd, newindex_meta_overlay _ _ _ _ k v h.next (Nat.succ_pos n) (hup k) hmeta hni,
      rawSetChecked_ok _ _ _ _ hk]
  · intro k2
    rw [rawGet_rawSet_ne_table _ _ _ _ _ _ hne1, rawGet_def, rawGet_def,
      create_overlay_preserve _ _ _ hne1 hne2]
  · rw [hsnd]
    have : ((create_overlay_table h lower).1.rawSet h.next k v).rawGet h.next k = v := by
      simp
    rw [index_raw_hit _ _ _ _ (Nat.succ_pos n) (by rw [this]; exact hv), this]
  · intro k3 m
    rw [hsnd, index_meta_table _ _ _ _ _ m (hup k3) hmeta hidx]

/-- C8: for every protected table and every overlay table, the
script-level setmetatable call is rejected (the wrapper installs the
metatable guard) and getmetatable reveals only the guard value `true`,
so the access-control wrapper can be neither replaced nor removed nor
even reached through the public interface of the table. -/
theorem C8_wrapper_not_replaceable (h : Heap) (t lower : TableId) (m m2 : Option TableId)
    (ht : t ≠ h.next) :
    lua_setmetatable (protect_table h t) t m =
      .error (.runtime "cannot change a protected metatable") ∧
    lua_getmetatable (protect_table h t) t = .boolean true ∧
    lua_setmetatable (create_overlay_table h lower).1 (create_overlay_table h lower).2 m2 =
      .error (.runtime "cannot change a protected metatable") ∧
    lua_getmetatable (create_overlay_table h lower).1 (create_overlay_table h lower).2 =
      .boolean true := by
  obtain ⟨-, -, hpm, -, -, hpg⟩ := protect_table_spec h t ht
  obtain ⟨hosnd, -, -, hom, -, -, hog⟩ := create_overlay_spec h lower
  refine ⟨?_, ?_, ?_, ?_⟩
  · simp [lua_setmetatable, hpm, hpg]
  · simp [lua_getmetatable, hpm, hpg]
  · rw [hosnd]; simp [lua_setmetatable, hom, hog]
  · rw [hosnd]; simp [lua_getmetatable, hom, hog]

/-- Witness for C8 at a concrete single-table heap. -/
theorem C8_wrapper_not_replaceable_witness :
    (0 : TableId) ≠ ((emptyHeap.createTable).1).next ∧
    (lua_setmetatable (protect_table (emptyHeap.createTable).1 0) 0 none =
      .error (.runtime "cannot change a protected metatable") ∧
    lua_getmetatable (protect_table (emptyHeap.createTable).1 0) 0 = .boolean true ∧
    lua_setmetatable (create_overlay_table (emptyHeap.createTable).1 0).1
        (create_overlay_table (emptyHeap.createTable).1 0).2 (some 0) =
      .error (.runtime "cannot change a protected metatable") ∧
    lua_getmetatable (create_overlay_table (emptyHeap.createTable).1 0).1
        (create_overlay_table (emptyHeap.createTable).1 0).2 =
      .boolean true) :=
  ⟨by decide, C8_wrapper_not_replaceable (emptyHeap.createTable).1 0 0 none (some 0) (by decide)⟩

/-- C5: with_filesystems removes the "vfs" namespace from the capability
table before returning, on every exit path of the modelled call — the
final heap never retains the binding, whatever the body did to the heap
and whether the body result is a success or an error — and the body
result is passed through unchanged after the removal. -/
theorem C5_vfs_removed_on_every_exit (R : Type) (rt : Runtime) (fss : List (LuaValue × Nat))
    (body : Heap → Heap × Except LuaError R) :
    (with_filesystems rt fss body).1.rawGet rt.libTable (.str "vfs") = .nil ∧
    (with_filesystems rt fss body).2 = (body (installVfs rt.heap rt.libTable fss).1).2 := by
  constructor
  · simp [with_filesystems, Heap.rawRemove]
  · rfl

/-- Witness for C5 with a body that returns an error. -/
theorem C5_vfs_removed_on_every_exit_witness :
    (with_filesystems bootRuntime [(.str "a", 0)]
        (fun hh => (hh, (Except.error (LuaError.runtime "boom") : Except LuaError Unit)))).1.rawGet
      bootRuntime.libTable (.str "vfs") = .nil ∧
    (with_filesystems bootRuntime [(.str "a", 0)]
        (fun hh => (hh, (Except.error (LuaError.runtime "boom") : Except LuaError Unit)))).2 =
      ((fun hh => (hh, (Except.error (LuaError.runtime "boom") : Except LuaError Unit)))
        (installVfs bootRuntime.heap bootRuntime.libTable [(.str "a", 0)]).1).2 :=
  C5_vfs_removed_on_every_exit Unit bootRuntime [(.str "a", 0)]
    (fun hh => (hh, (Except.error (LuaError.runtime "boom") : Except LuaError Unit)))

/-- C9: bootstrap removes from globals every primitive for dynamic file
loading (dofile, loadfile), raw garbage-collection control
(collectgarbage), and raw table-field assignment that ignores
access-control wrappers (rawset), and removes the ambient shared global
alias _G entirely; each of the five was present before bootstrap. -/
theorem C9_dangerous_primitives_removed :
    initialState.1.rawGet initialState.2 (.str "dofile") ≠ .nil ∧
    initialState.1.rawGet initialState.2 (.str "collectgarbage") ≠ .nil ∧
    initialState.1.rawGet initialState.2 (.str "loadfile") ≠ .nil ∧
    initialState.1.rawGet initialState.2 (.str "rawset") ≠ .nil ∧
    initialState.1.rawGet initialState.2 (.str "_G") ≠ .nil ∧
    bootRuntime.heap.rawGet bootRuntime.globals (.str "dofile") = .nil ∧
    bootRuntime.heap.rawGet bootRuntime.globals (.str "collectgarbage") = .nil ∧
    bootRuntime.heap.rawGet bootRuntime.globals (.str "loadfile") = .nil ∧
    bootRuntime.heap.rawGet bootRuntime.globals (.str "rawset") = .nil ∧
    bootRuntime.heap.rawGet bootRuntime.globals (.str "_G") = .nil :=
  ⟨by decide, by decide, by decide, by decide, by decide, rfl, rfl, rfl, rfl, rfl⟩

/-- C10: table protection guards only the metamethod-mediated write
path. A host-side raw write on a protected table still succeeds and
mutates it while the wrapper stays installed, even though the
script-visible write path on the bootstrapped protected capability
table is rejected; with_filesystems relies on this bypass, raw-writing
the "vfs" entry onto the already-protected capability table and
raw-removing it afterwards. -/
theorem C10_raw_writes_bypass_protection (h : Heap) (t : TableId) (k v : LuaValue)
    (ht : t ≠ h.next) :
    ((protect_table h t).rawSet t k v).rawGet t k = v ∧
    (((protect_table h t).rawSet t k v).getTable t).metatable = some h.next ∧
    newindex bootRuntime.heap 10 bootRuntime.libTable (.str "somekey") (.num 1) =
      .error (.runtime "attempt to update a protected table") ∧
    (installVfs bootRuntime.heap bootRuntime.libTable [(.str "a", 0)]).1.rawGet
      bootRuntime.libTable (.str "vfs") = .table 22 ∧
    (with_filesystems bootRuntime [(.str "a", 0)] (fun hh => (hh, Except.ok 0))).1.rawGet
      bootRuntime.libTable (.str "vfs") = .nil := by
  obtain ⟨-, -, hpm, -, -, -⟩ := protect_table_spec h t ht
  exact ⟨by simp, by simp [hpm], rfl, rfl, rfl⟩

/-- Witness for C10 at a concrete single-table heap. -/
theorem C10_raw_writes_bypass_protection_witness :
    (0 : TableId) ≠ ((emptyHeap.createTable).1).next ∧
    ((protect_table (emptyHeap.createTable).1 0).rawSet 0 (.str "k") (.num 9)).rawGet 0
      (.str "k") = .num 9 ∧
    (((protect_table (emptyHeap.createTable).1 0).rawSet 0 (.str "k") (.num 9)).getTable 0).metatable =
      some ((emptyHeap.createTable).1).next ∧
    newindex bootRuntime.heap 10 bootRuntime.libTable (.str "somekey") (.num 1) =
      .error (.runtime "attempt to update a protected table") ∧
    (installVfs bootRuntime.heap bootRuntime.libTable [(.str "a", 0)]).1.rawGet
      bootRuntime.libTable (.str "vfs") = .table 22 ∧
    (with_filesystems bootRuntime [(.str "a", 0)] (fun hh => (hh, Except.ok 0))).1.rawGet
      bootRuntime.libTable (.str "vfs") = .nil :=
  ⟨by decide,
    C10_raw_writes_bypass_protection (emptyHeap.createTable).1 0 (.str "k") (.num 9) (by decide)⟩

/-- Witness for C2: the amended overlay isolation at a concrete heap. -/
theorem C2_overlay_write_isolated_witness :
    (0 : TableId) < ((emptyHeap.createTable).1.rawSet 0 (.str "old") (.num 7)).next ∧
    (LuaValue.str "x") ≠ .nil ∧ (LuaValue.num 1) ≠ .nil ∧
    ∃ h2,
      newindex
          (create_overlay_table ((emptyHeap.createTable).1.rawSet 0 (.str "old") (.num 7)) 0).1
          (5 + 1)
          (create_overlay_table ((emptyHeap.createTable).1.rawSet 0 (.str "old") (.num 7)) 0).2
          (.str "x") (.num 1) = .ok h2 ∧
      (∀ k2, h2.rawGet 0 k2 =
        ((emptyHeap.createTable).1.rawSet 0 (.str "old") (.num 7)).rawGet 0 k2) ∧
      index h2 (5 + 1)
          (create_overlay_table ((emptyHeap.createTable).1.rawSet 0 (.str "old") (.num 7)) 0).2
          (.str "x") = .ok (.num 1) ∧
      (∀ k3 m,
        index
            (create_overlay_table ((emptyHeap.createTable).1.rawSet 0 (.str "old") (.num 7)) 0).1
            (m + 1)
            (create_overlay_table ((emptyHeap.createTable).1.rawSet 0 (.str "old") (.num 7)) 0).2
            k3 =
          index
            (create_overlay_table ((emptyHeap.createTable).1.rawSet 0 (.str "old") (.num 7)) 0).1
            m 0 k3) :=
  ⟨by decide, by decide, by decide,
    C2_overlay_write_isolated _ 0 (.str "x") (.num 1) 5 (by decide) (by decide) (by decide)⟩

/-- C4 counterexample: the claim states every native extension function
is injected into its bundled sub-table before that sub-table is
protected. In the bootstrap event log the debug sub-table (table 15,
the value of "debug" in the capability table) is protected at position 8
of the log, while the native debug extension is injected into it only at
position 13: protection precedes injection. -/
theorem C4_counterexample_protection_precedes_injection :
    bootRuntime.heap.rawGet bootRuntime.libTable (.str "debug") = .table 15 ∧
    bootEvents.indexOf (.protectedTable 15) = 8 ∧
    bootEvents.indexOf (.injectedNative 15 "native") = 13 ∧
    (BootEvent.protectedTable 15) ∈ bootEvents ∧
    (BootEvent.injectedNative 15 "native") ∈ bootEvents :=
  ⟨rfl, by decide, by decide, by decide, by decide⟩

/-- C4 (amended): at bootstrap the bundled sub-tables of the capability
table are protected first; the xml library table is installed after that
protection pass; the native debug and util extensions are then injected
into the already-protected debug and util sub-tables through raw writes
that bypass protection; and the capability table itself is protected
last. In the final state the capability table and every bundled
sub-table (util 12, iter 13, table 14, debug 15) reject script-visible
writes of fresh keys, and the injected native functions are present. -/
theorem C4_bootstrap_order :
    bootEvents.indexOf (.protectedTable 15) < bootEvents.indexOf (.injectedNative 15 "native") ∧
    bootEvents.indexOf (.protectedTable 12) < bootEvents.indexOf (.injectedNative 12 "native") ∧
    bootEvents.indexOf (.protectedTable 15) < bootEvents.indexOf (.installedXmlLib 20) ∧
    bootEvents.getLast? = some (.protectedTable bootRuntime.libTable) ∧
    bootRuntime.heap.rawGet bootRuntime.libTable (.str "util") = .table 12 ∧
    bootRuntime.heap.rawGet bootRuntime.libTable (.str "iter") = .table 13 ∧
    bootRuntime.heap.rawGet bootRuntime.libTable (.str "table") = .table 14 ∧
    bootRuntime.heap.rawGet bootRuntime.libTable (.str "debug") = .table 15 ∧
    bootRuntime.heap.rawGet bootRuntime.libTable (.str "xml") = .table 20 ∧
    newindex bootRuntime.heap 10 bootRuntime.libTable (.str "fresh") (.num 1) =
      .error (.runtime "attempt to update a protected table") ∧
    newindex bootRuntime.heap 10 12 (.str "fresh") (.num 1) =
      .error (.runtime "attempt to update a protected table") ∧
    newindex bootRuntime.heap 10 13 (.str "fresh") (.num 1) =
      .error (.runtime "attempt to update a protected table") ∧
    newindex bootRuntime.heap 10 14 (.str "fresh") (.num 1) =
      .error (.runtime "attempt to update a protected table") ∧
    newindex bootRuntime.heap 10 15 (.str "fresh") (.num 1) =
      .error (.runtime "attempt to update a protected table") ∧
    bootRuntime.heap.rawGet 15 (.str "native") = .fn (.base "debug native extension") ∧
    bootRuntime.heap.rawGet 12 (.str "native") = .fn (.base "util native extension") :=
  ⟨by decide, by decide, by decide, rfl, rfl, rfl, rfl, rfl, rfl,
   rfl, rfl, rfl, rfl, rfl, rfl, rfl⟩

/-- C6 counterexample: the claim states that after the collection the
same three figures (total allocation, GC-tracked allocation, allocation
debt) are reported again. The code prints only two lines after the
collection — GC-tracked and total allocation, with no debt figure: with
the arena at rooted 10, garbage 5, external 3, debt 7, the diagnostic
output of a run with print_arena_stats set is exactly these five lines,
two of them after the collection point. -/
theorem C6_counterexample_two_figures_after_collection :
    (ModLuaRuntime_run ⟨(emptyHeap.createTable).1, 0, 0, ⟨10, 5, 3, 7⟩⟩ (.text [])
        ⟨none, true⟩).output =
      ["allocated bytes: 18", "allocated bytes (gc only): 15", "debt: 7",
       "allocated bytes after collection (gc only): 10",
       "allocated bytes after collection: 13"] ∧
    ((ModLuaRuntime_run ⟨(emptyHeap.createTable).1, 0, 0, ⟨10, 5, 3, 7⟩⟩ (.text [])
        ⟨none, true⟩).output.drop 3).length = 2 :=
  ⟨rfl, rfl⟩

/-- C6 (amended): when print_arena_stats is set and the script executes
successfully, run reports total allocation, GC-tracked allocation and
allocation debt, performs one full collection, then reports GC-tracked
and total allocation again (two figures, not three); the path is purely
observational — the resulting heap, script result and observations are
identical to the run with the flag unset, which produces no output and
leaves the arena untouched. -/
theorem C6_arena_stats_observational (rt : Runtime) (code : Source) (d : Option Nat) :
    (ModLuaRuntime_run rt code ⟨d, true⟩).rt.heap =
      (ModLuaRuntime_run rt code ⟨d, false⟩).rt.heap ∧
    (ModLuaRuntime_run rt code ⟨d, true⟩).res = (ModLuaRuntime_run rt code ⟨d, false⟩).res ∧
    (ModLuaRuntime_run rt code ⟨d, true⟩).obs = (ModLuaRuntime_run rt code ⟨d, false⟩).obs ∧
    (ModLuaRuntime_run rt code ⟨d, false⟩).output = [] ∧
    (ModLuaRuntime_run rt code ⟨d, false⟩).rt.arena = rt.arena ∧
    (ModLuaRuntime_run rt code ⟨d, true⟩).output =
      (if (ModLuaRuntime_run rt code ⟨d, true⟩).res = none
       then statsBefore rt.arena ++ statsAfter rt.arena.collect_all else []) ∧
    (ModLuaRuntime_run rt code ⟨d, true⟩).rt.arena =
      (if (ModLuaRuntime_run rt code ⟨d, true⟩).res = none
       then rt.arena.collect_all else rt.arena) := by
  unfold ModLuaRuntime_run
  cases hr : (runExec rt code d).2.2 with
  | none => simp [hr]
  | some e => simp [hr]

/-- Facts about the environment heap built at the start of run: the
overlay upper table aliased as its own "_G", its metatable wiring, and
preservation of all preexisting tables. -/
theorem envSetup_facts (h : Heap) (g : TableId) :
    ((create_overlay_table h g).1.rawSet h.next (.str "_G") (.table h.next)).rawGet h.next
      (.str "_G") = .table h.next ∧
    (∀ s : String, s ≠ "_G" →
      ((create_overlay_table h g).1.rawSet h.next (.str "_G") (.table h.next)).rawGet h.next
        (.str s) = .nil) ∧
    (((create_overlay_table h g).1.rawSet h.next (.str "_G") (.table h.next)).getTable
      h.next).metatable = some (h.next + 1) ∧
    ((create_overlay_table h g).1.rawSet h.next (.str "_G") (.table h.next)).rawGet
      (h.next + 1) (.str "__newindex") = .fn (.overlayNewindex h.next) ∧
    ((create_overlay_table h g).1.rawSet h.next (.str "_G") (.table h.next)).rawGet
      (h.next + 1) (.str "__index") = .table g ∧
    (∀ t, t < h.next →
      ((create_overlay_table h g).1.rawSet h.next (.str "_G") (.table h.next)).getTable t =
        h.getTable t) ∧
    ((create_overlay_table h g).1.rawSet h.next (.str "_G") (.table h.next)).next =
      h.next + 2 := by
  obtain ⟨-, hnext, hfields, hmeta, hidx, hni, -⟩ := create_overlay_spec h g
  have hne : h.next + 1 ≠ h.next := Nat.succ_ne_self h.next
  refine ⟨by simp, ?_, ?_, ?_, ?_, ?_, ?_⟩
  · intro s hs
    rw [rawGet_rawSet_ne_key _ _ _ _ _ (by simp [hs, Ne.symm hs]), rawGet_def, hfields]
    rfl
  · rw [metatable_rawSet_self, hmeta]
  · rw [rawGet_rawSet_ne_table _ _ _ _ _ _ hne, hni]
  · rw [rawGet_rawSet_ne_table _ _ _ _ _ _ hne, hidx]
  · intro t ht
    rw [getTable_rawSet_ne _ _ _ _ _ (Nat.ne_of_lt ht),
      create_overlay_preserve _ _ _ (Nat.ne_of_lt ht) (Nat.ne_of_lt (Nat.lt_succ_of_lt ht))]
  · rw [next_rawSet, hnext]

/-- C7: calling run with a precompiled/binary chunk is rejected in text
compile mode before any execution: the call returns a ScriptError, no
statement of the chunk executes (no observation is made), no diagnostic
output is produced, and every table that existed before the call — the
shared globals included — is unchanged. -/
theorem C7_binary_chunk_rejected (rt : Runtime) (prog : List Stmt) (ctx : LuaContext)
    (t : TableId) (ht : t < rt.heap.next) :
    (ModLuaRuntime_run rt (.binary prog) ctx).res =
      some (.runtime "attempt to load a binary chunk") ∧
    (ModLuaRuntime_run rt (.binary prog) ctx).obs = [] ∧
    (ModLuaRuntime_run rt (.binary prog) ctx).output = [] ∧
    (ModLuaRuntime_run rt (.binary prog) ctx).rt.heap.getTable t = rt.heap.getTable t := by
  obtain ⟨hsnd, -, -, -, -, -, -⟩ := create_overlay_spec rt.heap rt.globals
  obtain ⟨-, hmiss, hmeta, hni, -, hpres, -⟩ := envSetup_facts rt.heap rt.globals
  obtain ⟨d, flag⟩ := ctx
  have hexec : ∃ hh : Heap, runExec rt (.binary prog) d =
      (hh, [], some (.runtime "attempt to load a binary chunk")) ∧
      hh.getTable t = rt.heap.getTable t := by
    cases d with
    | none =>
      refine ⟨_, ?_, hpres t ht⟩
      unfold runExec
      dsimp only
      rw [hsnd]
    | some dd =>
      have hstep : newindex
          ((create_overlay_table rt.heap rt.globals).1.rawSet rt.heap.next (.str "_G")
            (.table rt.heap.next)) runFuel rt.heap.next (.str "document") (.userdata dd) =
          .ok (((create_overlay_table rt.heap rt.globals).1.rawSet rt.heap.next (.str "_G")
            (.table rt.heap.next)).rawSet rt.heap.next (.str "document") (.userdata dd)) := by
        rw [newindex_meta_overlay _ _ _ _ _ _ rt.heap.next (by decide)
            (hmiss "document" (by decide)) hmeta hni,
          rawSetChecked_ok _ _ _ _ (by decide)]
      refine ⟨((create_overlay_table rt.heap rt.globals).1.rawSet rt.heap.next (.str "_G")
          (.table rt.heap.next)).rawSet rt.heap.next (.str "document") (.userdata dd), ?_, ?_⟩
      · unfold runExec
        dsimp only
        rw [hsnd, hstep]
      · rw [getTable_rawSet_ne _ _ _ _ _ (Nat.ne_of_lt ht)]
        exact hpres t ht
  obtain ⟨hh, hrx, hhp⟩ := hexec
  unfold ModLuaRuntime_run
  rw [hrx]
  exact ⟨rfl, rfl, rfl, hhp⟩

/-- Witness for C7 at the bootstrapped runtime, with a document bound
and a nonempty chunk, checking that the globals table is untouched. -/
theorem C7_binary_chunk_rejected_witness :
    (0 : TableId) < bootRuntime.heap.next ∧
    ((ModLuaRuntime_run bootRuntime (.binary [.assign "x" (.num 1)]) ⟨some 3, true⟩).res =
       some (.runtime "attempt to load a binary chunk") ∧
     (ModLuaRuntime_run bootRuntime (.binary [.assign "x" (.num 1)]) ⟨some 3, true⟩).obs = [] ∧
     (ModLuaRuntime_run bootRuntime (.binary [.assign "x" (.num 1)]) ⟨some 3, true⟩).output = [] ∧
     (ModLuaRuntime_run bootRuntime
         (.binary [.assign "x" (.num 1)]) ⟨some 3, true⟩).rt.heap.getTable 0 =
       bootRuntime.heap.getTable 0) :=
  ⟨by decide,
    C7_binary_chunk_rejected bootRuntime [.assign "x" (.num 1)] ⟨some 3, true⟩ 0 (by decide)⟩

theorem execStmts_nil (fuel : Nat) (h : Heap) (env : TableId) :
    execStmts fuel h env [] = (h, [], none) := rfl

theorem execStmts_assign_ok (fuel : Nat) (h h2 : Heap) (env : TableId) (n : String)
    (v : LuaValue) (rest : List Stmt)
    (hni : newindex h fuel env (.str n) v = .ok h2) :
    execStmts fuel h env (.assign n v :: rest) = execStmts fuel h2 env rest := by
  simp [execStmts, hni]

theorem execStmts_observe_ok (fuel : Nat) (h : Heap) (env : TableId) (n : String)
    (v : LuaValue) (rest : List Stmt)
    (hix : index h fuel env (.str n) = .ok v) :
    execStmts fuel h env (.observe n :: rest) =
      ((execStmts fuel h env rest).1, v :: (execStmts fuel h env rest).2.1,
        (execStmts fuel h env rest).2.2) := by
  simp [execStmts, hix]

/-- Unfolding of a run with no document and no stats flag whose exec
phase succeeds. -/
theorem run_text_ok (rt : Runtime) (prog : List Stmt) (hh : Heap) (obs : List LuaValue)
    (hex : execStmts runFuel
        ((create_overlay_table rt.heap rt.globals).1.rawSet rt.heap.next (.str "_G")
          (.table rt.heap.next)) rt.heap.next prog = (hh, obs, none)) :
    ModLuaRuntime_run rt (.text prog) ⟨none, false⟩ =
      ⟨{ rt with heap := hh }, none, obs, []⟩ := by
  obtain ⟨hsnd, -, -, -, -, -, -⟩ := create_overlay_spec rt.heap rt.globals
  unfold ModLuaRuntime_run runExec
  dsimp only
  rw [hsnd, hex]
  rfl

/-- A run of a single global assignment (no document, no stats): it
succeeds with no observation, the write lands in the per-call overlay,
and every preexisting table — the shared globals included — is
unchanged. -/
theorem run_assign_spec (rt : Runtime) (g : String) (v : LuaValue) (hG : g ≠ "_G") :
    ∃ hh, ModLuaRuntime_run rt (.text [.assign g v]) ⟨none, false⟩ =
      ⟨{ rt with heap := hh }, none, [], []⟩ ∧
      (∀ t, t < rt.heap.next → hh.getTable t = rt.heap.getTable t) ∧
      hh.next = rt.heap.next + 2 := by
  obtain ⟨-, F2, F3, F4, -, F6, F7⟩ := envSetup_facts rt.heap rt.globals
  have hksg : (LuaValue.str g) ≠ .nil := by simp
  have hni1 : newindex
      ((create_overlay_table rt.heap rt.globals).1.rawSet rt.heap.next (.str "_G")
        (.table rt.heap.next)) runFuel rt.heap.next (.str g) v =
      .ok (((create_overlay_table rt.heap rt.globals).1.rawSet rt.heap.next (.str "_G")
        (.table rt.heap.next)).rawSet rt.heap.next (.str g) v) := by
    rw [newindex_meta_overlay _ _ _ _ _ _ rt.heap.next (by decide) (F2 g hG) F3 F4,
      rawSetChecked_ok _ _ _ _ hksg]
  refine ⟨((create_overlay_table rt.heap rt.globals).1.rawSet rt.heap.next (.str "_G")
      (.table rt.heap.next)).rawSet rt.heap.next (.str g) v, ?_, ?_, ?_⟩
  · apply run_text_ok
    rw [execStmts_assign_ok _ _ _ _ _ _ _ hni1, execStmts_nil]
  · intro t ht
    rw [getTable_rawSet_ne _ _ _ _ _ (Nat.ne_of_lt ht)]
    exact F6 t ht
  · rw [next_rawSet, F7]

/-- A run that observes a global, assigns it, and observes it again (no
document, no stats): over a metatable-free globals table the first
observation is the value of the shared globals binding, the second is
the value just assigned, and the run succeeds. -/
theorem run_oao_spec (rt : Runtime) (g : String) (v : LuaValue)
    (hg : rt.globals < rt.heap.next)
    (hgm : (rt.heap.getTable rt.globals).metatable = none)
    (hG : g ≠ "_G") (hv : v ≠ .nil) :
    ∃ hh, ModLuaRuntime_run rt (.text [.observe g, .assign g v, .observe g]) ⟨none, false⟩ =
      ⟨{ rt with heap := hh }, none, [rt.heap.rawGet rt.globals (.str g), v], []⟩ := by
  obtain ⟨-, F2, F3, F4, F5, F6, -⟩ := envSetup_facts rt.heap rt.globals
  have hksg : (LuaValue.str g) ≠ .nil := by simp
  have hrfs : runFuel = 99 + 1 := rfl
  have hget0 : ((create_overlay_table rt.heap rt.globals).1.rawSet rt.heap.next (.str "_G")
      (.table rt.heap.next)).getTable rt.globals = rt.heap.getTable rt.globals :=
    F6 rt.globals hg
  have hraw0 : ((create_overlay_table rt.heap rt.globals).1.rawSet rt.heap.next (.str "_G")
      (.table rt.heap.next)).rawGet rt.globals (.str g) =
      rt.heap.rawGet rt.globals (.str g) := by
    simp only [rawGet_def, hget0]
  have hidx0 : index
      ((create_overlay_table rt.heap rt.globals).1.rawSet rt.heap.next (.str "_G")
        (.table rt.heap.next)) runFuel rt.heap.next (.str g) =
      .ok (rt.heap.rawGet rt.globals (.str g)) := by
    rw [hrfs, index_meta_table _ _ _ _ _ 99 (F2 g hG) F3 F5,
      index_nometa _ _ _ _ (by decide) (by rw [hget0]; exact hgm), hraw0]
  have hni2 : newindex
      ((create_overlay_table rt.heap rt.globals).1.rawSet rt.heap.next (.str "_G")
        (.table rt.heap.next)) runFuel rt.heap.next (.str g) v =
      .ok (((create_overlay_table rt.heap rt.globals).1.rawSet rt.heap.next (.str "_G")
        (.table rt.heap.next)).rawSet rt.heap.next (.str g) v) := by
    rw [newindex_meta_overlay _ _ _ _ _ _ rt.heap.next (by decide) (F2 g hG) F3 F4,
      rawSetChecked_ok _ _ _ _ hksg]
  have hidx2 : index
      (((create_overlay_table rt.heap rt.globals).1.rawSet rt.heap.next (.str "_G")
        (.table rt.heap.next)).rawSet rt.heap.next (.str g) v) runFuel rt.heap.next
      (.str g) = .ok v := by
    have hvv : (((create_overlay_table rt.heap rt.globals).1.rawSet rt.heap.next (.str "_G")
        (.table rt.heap.next)).rawSet rt.heap.next (.str g) v).rawGet rt.heap.next
        (.str g) = v := by simp
    rw [index_raw_hit _ _ _ _ (by decide) (by rw [hvv]; exact hv), hvv]
  refine ⟨((create_overlay_table rt.heap rt.globals).1.rawSet rt.heap.next (.str "_G")
      (.table rt.heap.next)).rawSet rt.heap.next (.str g) v, ?_⟩
  apply run_text_ok
  rw [execStmts_observe_ok _ _ _ _ _ _ hidx0, execStmts_assign_ok _ _ _ _ _ _ _ hni2,
    execStmts_observe_ok _ _ _ _ _ _ hidx2, execStmts_nil]

/-- C3: two sequential run calls on the same runtime, whose scripts
assign different values to the same global name, never observe the value of the
other. The first run succeeds and leaves the shared globals
binding of the name untouched; the second run — over a metatable-free
globals table — observes the original globals value through its own
fresh overlay and then only its own assignment, so the value written
by the first run never appears among its observations. -/
theorem C3_sequential_runs_isolated (rt : Runtime) (g : String) (v1 v2 : LuaValue)
    (hg : rt.globals < rt.heap.next)
    (hgm : (rt.heap.getTable rt.globals).metatable = none)
    (hG : g ≠ "_G") (hv2 : v2 ≠ .nil)
    (horig : v1 ≠ rt.heap.rawGet rt.globals (.str g)) (hne : v1 ≠ v2) :
    (ModLuaRuntime_run rt (.text [.assign g v1]) ⟨none, false⟩).res = none ∧
    (ModLuaRuntime_run rt (.text [.assign g v1]) ⟨none, false⟩).rt.heap.rawGet rt.globals
      (.str g) = rt.heap.rawGet rt.globals (.str g) ∧
    (ModLuaRuntime_run (ModLuaRuntime_run rt (.text [.assign g v1]) ⟨none, false⟩).rt
      (.text [.observe g, .assign g v2, .observe g]) ⟨none, false⟩).res = none ∧
    (ModLuaRuntime_run (ModLuaRuntime_run rt (.text [.assign g v1]) ⟨none, false⟩).rt
      (.text [.observe g, .assign g v2, .observe g]) ⟨none, false⟩).obs =
      [rt.heap.rawGet rt.globals (.str g), v2] ∧
    v1 ∉ (ModLuaRuntime_run (ModLuaRuntime_run rt (.text [.assign g v1]) ⟨none, false⟩).rt
      (.text [.observe g, .assign g v2, .observe g]) ⟨none, false⟩).obs := by
  obtain ⟨hh, hrun1, hpres, hnext⟩ := run_assign_spec rt g v1 hG
  have hgetg : hh.getTable rt.globals = rt.heap.getTable rt.globals := hpres rt.globals hg
  have hrawg : hh.rawGet rt.globals (.str g) = rt.heap.rawGet rt.globals (.str g) := by
    simp only [rawGet_def, hgetg]
  have hrt1 : (ModLuaRuntime_run rt (.text [.assign g v1]) ⟨none, false⟩).rt =
      { rt with heap := hh } := by rw [hrun1]
  have hg2 : ({ rt with heap := hh } : Runtime).globals <
      ({ rt with heap := hh } : Runtime).heap.next := by
    dsimp only
    rw [hnext]
    exact Nat.lt_succ_of_lt (Nat.lt_succ_of_lt hg)
  have hgm2 : (({ rt with heap := hh } : Runtime).heap.getTable
      ({ rt with heap := hh } : Runtime).globals).metatable = none := by
    dsimp only
    rw [hgetg]
    exact hgm
  obtain ⟨hh2, hrun2⟩ := run_oao_spec { rt with heap := hh } g v2 hg2 hgm2 hG hv2
  refine ⟨by rw [hrun1], ?_, ?_, ?_, ?_⟩
  · rw [hrun1]
    exact hrawg
  · rw [hrt1, hrun2]
  · rw [hrt1, hrun2]
    dsimp only
    rw [hrawg]
  · rw [hrt1, hrun2]
    dsimp only
    rw [hrawg]
    simp [horig, hne]

/-- Witness for C3 at the bootstrapped runtime with global name x and
values 1 and 2. -/
theorem C3_sequential_runs_isolated_witness :
    (bootRuntime.globals < bootRuntime.heap.next ∧
     (bootRuntime.heap.getTable bootRuntime.globals).metatable = none ∧
     "x" ≠ "_G" ∧ (LuaValue.num 2) ≠ .nil ∧
     (LuaValue.num 1) ≠ bootRuntime.heap.rawGet bootRuntime.globals (.str "x") ∧
     (LuaValue.num 1) ≠ (LuaValue.num 2)) ∧
    ((ModLuaRuntime_run bootRuntime (.text [.assign "x" (.num 1)]) ⟨none, false⟩).res = none ∧
     (ModLuaRuntime_run bootRuntime
         (.text [.assign "x" (.num 1)]) ⟨none, false⟩).rt.heap.rawGet bootRuntime.globals
       (.str "x") = bootRuntime.heap.rawGet bootRuntime.globals (.str "x") ∧
     (ModLuaRuntime_run
         (ModLuaRuntime_run bootRuntime (.text [.assign "x" (.num 1)]) ⟨none, false⟩).rt
         (.text [.observe "x", .assign "x" (.num 2), .observe "x"]) ⟨none, false⟩).res = none ∧
     (ModLuaRuntime_run
         (ModLuaRuntime_run bootRuntime (.text [.assign "x" (.num 1)]) ⟨none, false⟩).rt
         (.text [.observe "x", .assign "x" (.num 2), .observe "x"]) ⟨none, false⟩).obs =
       [bootRuntime.heap.rawGet bootRuntime.globals (.str "x"), .num 2] ∧
     (LuaValue.num 1) ∉ (ModLuaRuntime_run
         (ModLuaRuntime_run bootRuntime (.text [.assign "x" (.num 1)]) ⟨none, false⟩).rt
         (.text [.observe "x", .assign "x" (.num 2), .observe "x"]) ⟨none, false⟩).obs) :=
  ⟨⟨by decide, by decide, by decide, by decide, by decide, by decide⟩,
    C3_sequential_runs_isolated bootRuntime "x" (.num 1) (.num 2) (by decide) (by decide)
      (by decide) (by decide) (by decide) (by decide)⟩
